import Mathlib

/-!
Shallow embedding of the BLE/WBAN simulation engine of the
Remote_HealthCare-System repository (src/src/data/bleWbanDataGenerator.ts),
together with theorems settling the specification claims about it.

Modelling conventions:
- JavaScript numbers are modelled as rationals (all arithmetic in the source
  is exact decimal arithmetic on small values).
- `Math.random()` is modelled by an explicit stream of rationals: an `RNG`
  holds a function `f : Nat → ℚ` and a cursor; each call to `next` reads one
  value and advances the cursor.  The assumption that every draw lies in
  [0, 1) is the explicit predicate `RNG.Unit01`.
- `Math.floor` is `Int.floor`, `Math.round` is `Int.floor (x + 1/2)`
  (JavaScript rounds half away from zero upward for the positive values that
  occur here), `Math.max`/`Math.min` are `max`/`min`.
- The JavaScript `x || d` default idiom on numbers (used for map lookups and
  last-value defaults) is `jsOr`: `none` and `some 0` both give the default.
- The per-instance `Map`s are association lists: `mapGet` is `Map.get`,
  `mapSet` is `Map.set` (replace in place, append new keys at the end),
  matching JavaScript `Map` insertion-order semantics.
- `Date.now()` is an explicit `now : ℤ` argument.
-/

namespace BLEWBAN

/-- Anatomical placement enumeration of the source's `position` union type. -/
inductive Position where
  | head
  | arm
  | wrist
  | chest
  | torso_front
  | torso_back
deriving DecidableEq

/-- Signal-quality classification of `VitalSignsReading['signalQuality']`. -/
inductive SignalQuality where
  | excellent
  | good
  | fair
  | poor
deriving DecidableEq

/-- Connection status of `VitalSignsReading['connectionStatus']`. -/
inductive ConnectionStatus where
  | connected
  | weak
  | disconnected
deriving DecidableEq

/-- One entry of the static `WBAN_POSITIONS` catalog. -/
structure SensorPosition where
  id : String
  name : String
  position : Position
  priority : Nat

/-- The fixed sensor-position catalog (`WBAN_POSITIONS` in the source). -/
def WBAN_POSITIONS : List SensorPosition :=
  [⟨"chest", "Chest ECG", Position.chest, 1⟩,
   ⟨"wrist_l", "Left Wrist", Position.wrist, 2⟩,
   ⟨"wrist_r", "Right Wrist", Position.wrist, 2⟩,
   ⟨"head", "Head Monitor", Position.head, 3⟩,
   ⟨"arm_l", "Left Arm BP", Position.arm, 2⟩,
   ⟨"torso_back", "Back Monitor", Position.torso_back, 4⟩]

/-- The fixed BLE channel list (`BLE_CHANNELS` in the source; index 11 absent). -/
def BLE_CHANNELS : List ℤ :=
  [0, 1, 2, 3, 4, 5, 6, 7, 8, 9, 10, 12, 13, 14, 15, 16, 17, 18, 19, 20, 21,
   22, 23, 24, 25, 26, 27, 28, 29, 30, 31, 32, 33, 34, 35, 36, 37, 38, 39]

/-- The `BLEWBANFrame` record of the source. -/
structure BLEWBANFrame where
  frameNumber : Nat
  timestamp : ℤ
  deviceId : String
  position : Position
  txPower : String
  antenna : Nat
  frequency : ℤ
  channelNumber : ℤ
  rssi : ℚ
  signalStrength : ℚ
  frameDecoded : Bool
  bitLength : ℤ
  maxGradientUnwrappedPhase : List ℚ
  iComponent : List ℚ
  qComponent : List ℚ

/-- The nested blood-pressure record of `VitalSignsReading`.  The source
stores `Math.round`ed values here, hence integers. -/
structure BloodPressure where
  systolic : ℤ
  diastolic : ℤ
deriving DecidableEq

/-- The `VitalSignsReading` record of the source.  Heart rate, blood pressure
and oxygen saturation pass through `Math.round` and are integers; temperature
is rounded to one decimal and stays rational. -/
structure VitalSignsReading where
  heartRate : ℤ
  bloodPressure : BloodPressure
  oxygenSaturation : ℤ
  temperature : ℚ
  timestamp : ℤ
  signalQuality : SignalQuality
  batteryLevel : ℚ
  connectionStatus : ConnectionStatus

/-- Explicit random stream standing in for `Math.random()`. -/
structure RNG where
  f : Nat → ℚ
  idx : Nat

/-- One `Math.random()` call: read the current draw, advance the cursor. -/
def RNG.next (g : RNG) : ℚ × RNG :=
  (g.f g.idx, ⟨g.f, g.idx + 1⟩)

/-- Every draw of the stream lies in [0, 1), as `Math.random()` guarantees. -/
def RNG.Unit01 (g : RNG) : Prop :=
  ∀ n, 0 ≤ g.f n ∧ g.f n < 1

/-- JavaScript `x || d` on an optional number: both `undefined` and `0` are
falsy and give the default. -/
def jsOr (x : Option ℚ) (d : ℚ) : ℚ :=
  match x with
  | some v => if v = 0 then d else v
  | none => d

/-- JavaScript `Math.round` on the nonnegative values occurring here:
floor of `x + 1/2`. -/
def jsRound (x : ℚ) : ℤ :=
  Int.floor (x + 1 / 2)

/-- JavaScript `Math.floor`. -/
def jsFloor (x : ℚ) : ℤ :=
  Int.floor x

/-- `Map.get` on an association list (first binding wins). -/
def mapGet {α : Type} : List (String × α) → String → Option α
  | [], _ => none
  | (k, v) :: rest, key => if k = key then some v else mapGet rest key

/-- `Map.set` on an association list: replace an existing binding in place,
append a new key at the end (JavaScript `Map` insertion-order semantics). -/
def mapSet {α : Type} : List (String × α) → String → α → List (String × α)
  | [], key, val => [(key, val)]
  | (k, v) :: rest, key, val =>
    if k = key then (key, val) :: rest else (k, v) :: mapSet rest key val

/-- Mutable state of one `BLEWBANDataGenerator` instance: the process-wide
frame counter and the two per-instance maps. -/
structure GenState where
  frameCounter : Nat
  lastReadings : List (String × VitalSignsReading)
  signalNoiseFactors : List (String × ℚ)

/-- The constructor loop: one noise factor `Math.random() * 0.1 + 0.9` per
catalog entry, keyed by the bare position id. -/
def initNoiseFactors : List SensorPosition → RNG → List (String × ℚ) × RNG
  | [], g => ([], g)
  | pos :: rest, g =>
    let n := g.next
    let tail := initNoiseFactors rest n.2
    ((pos.id, n.1 * (1 / 10) + 9 / 10) :: tail.1, tail.2)

/-- `new BLEWBANDataGenerator()`: frame counter 0, empty last-readings map,
noise factors drawn for each catalog position. -/
def mkGenerator (g : RNG) : GenState × RNG :=
  let m := initNoiseFactors WBAN_POSITIONS g
  (⟨0, [], m.1⟩, m.2)

/-- The transmit-power draw
`Math.random() > 0.7 ? '9dbm' : Math.random() > 0.5 ? '6dbm' : '3dbm'`
(one or two `Math.random()` calls depending on the first test). -/
def pickTxPower (g : RNG) : String × RNG :=
  let n1 := g.next
  if n1.1 > 7 / 10 then ("9dbm", n1.2)
  else
    let n2 := n1.2.next
    if n2.1 > 1 / 2 then ("6dbm", n2.2) else ("3dbm", n2.2)

/-- `Array.from({length: n}, () => h (Math.random()))`: `n` sequential draws
mapped through `h`. -/
def randList : Nat → (ℚ → ℚ) → RNG → List ℚ × RNG
  | 0, _, g => ([], g)
  | n + 1, h, g =>
    let r := g.next
    let rest := randList n h r.2
    (h r.1 :: rest.1, rest.2)

/-- `generateBLEFrame(deviceId, position)`: increments the frame counter and
synthesizes one frame, consuming random draws in exactly the source's order
(tx power, channel, frame length, 10 I samples, 10 Q samples, RSSI noise,
antenna, decode flag, bit length, 5 phase samples). -/
def generateBLEFrame (st : GenState) (deviceId : String) (position : Position)
    (now : ℤ) (g : RNG) : BLEWBANFrame × GenState × RNG :=
  let frameCounter := st.frameCounter + 1
  let tp := pickTxPower g
  let nc := tp.2.next
  let channel := BLE_CHANNELS.getD (jsFloor (nc.1 * (BLE_CHANNELS.length : ℚ))).toNat 0
  let frequency := 2402000000 + channel * 2000000
  let nl := nc.2.next
  let _frameLength := jsFloor (nl.1 * 1000) + 8000
  let iC := randList 10 (fun r => (r - 1 / 2) * (2 / 100)) nl.2
  let qC := randList 10 (fun r => (r - 1 / 2) * (2 / 100)) iC.2
  let noiseLevel := jsOr (mapGet st.signalNoiseFactors deviceId) 1
  let nr := qC.2.next
  let rssi := -40 + (nr.1 * 20 - 10) * (1 / noiseLevel)
  let na := nr.2.next
  let antenna := (jsFloor (na.1 * 4)).toNat + 1
  let signalStrength := max 0 (min 100 ((rssi + 100) * (125 / 100)))
  let nd := na.2.next
  let frameDecoded := decide (nd.1 > 5 / 100)
  let nb := nd.2.next
  let bitLength := jsFloor (nb.1 * 100) + 150
  let ph := randList 5 (fun r => r * (3 / 100) - 15 / 1000) nb.2
  (⟨frameCounter, now, deviceId, position, tp.1, antenna, frequency, channel,
    rssi, signalStrength, frameDecoded, bitLength, ph.1, iC.1, qC.1⟩,
   ⟨frameCounter, st.lastReadings, st.signalNoiseFactors⟩, ph.2)

/-- The signal-quality cascade of `extractVitalSigns` (source lines 102-105):
start from `excellent`, downgrade by RSSI and decode success. -/
def classifyQuality (rssi : ℚ) (frameDecoded : Bool) : SignalQuality :=
  if rssi < -70 ∨ frameDecoded = false then SignalQuality.poor
  else if rssi < -60 then SignalQuality.fair
  else if rssi < -50 then SignalQuality.good
  else SignalQuality.excellent

/-- The quality-factor table of `extractVitalSigns` (source lines 143-145). -/
def qualityFactor : SignalQuality → ℚ
  | SignalQuality.excellent => 1
  | SignalQuality.good => 95 / 100
  | SignalQuality.fair => 85 / 100
  | SignalQuality.poor => 7 / 10

/-- The connection-status cascade of `extractVitalSigns` (source lines 158-159). -/
def classifyConnection (signalStrength : ℚ) : ConnectionStatus :=
  if signalStrength > 70 then ConnectionStatus.connected
  else if signalStrength > 40 then ConnectionStatus.weak
  else ConnectionStatus.disconnected

/-- `generateHeartRate(lastValue?, stability)`:
`clamp(base * stability + (r - 0.5) * 10, 50, 150)` with default base 72. -/
def generateHeartRate (lastValue : Option ℚ) (stability : ℚ) (r : ℚ) : ℚ :=
  let baseRate := jsOr lastValue 72
  let variation := (r - 1 / 2) * 10
  max 50 (min 150 (baseRate * stability + variation))

/-- `generateBloodPressure(lastValue?)`: additive walks clamped to
[90,180] and [60,120], defaults 120/80; systolic draw first. -/
def generateBloodPressure (lastValue : Option BloodPressure) (r1 r2 : ℚ) :
    ℚ × ℚ :=
  let baseSys := jsOr (lastValue.map fun bp => (bp.systolic : ℚ)) 120
  let baseDia := jsOr (lastValue.map fun bp => (bp.diastolic : ℚ)) 80
  (max 90 (min 180 (baseSys + (r1 - 1 / 2) * 8)),
   max 60 (min 120 (baseDia + (r2 - 1 / 2) * 6)))

/-- `generateOxygenSat(lastValue?, stability)`:
`clamp(base * stability + (r - 0.5) * 2, 85, 100)` with default base 98 and
default stability 0.95 (the wrist call site passes 0.9 explicitly). -/
def generateOxygenSat (lastValue : Option ℚ) (stability : ℚ) (r : ℚ) : ℚ :=
  let baseSat := jsOr lastValue 98
  let variation := (r - 1 / 2) * 2
  max 85 (min 100 (baseSat * stability + variation))

/-- `generateTemperature(lastValue?)`:
`clamp(base + (r - 0.5) * 0.5, 95, 104)` with default base 98.6. -/
def generateTemperature (lastValue : Option ℚ) (r : ℚ) : ℚ :=
  let baseTemp := jsOr lastValue (986 / 10)
  let variation := (r - 1 / 2) * (1 / 2)
  max 95 (min 104 (baseTemp + variation))

/-- The five pre-quality-factor vital values of `extractVitalSigns`
(locals `heartRate`, `systolic`, `diastolic`, `oxygenSat`, `temperature`). -/
structure BaseVitals where
  heartRate : ℚ
  systolic : ℚ
  diastolic : ℚ
  oxygenSat : ℚ
  temperature : ℚ

/-- The position switch of `extractVitalSigns` (source lines 108-140):
defaults 72 / 120 / 80 / 98 / 98.6, overridden per placement, consuming
random draws in source order.  The `torso_front` placement has no case and
keeps all defaults. -/
def baseVitals (position : Position) (lastReading : Option VitalSignsReading)
    (g : RNG) : BaseVitals × RNG :=
  let lastHR := lastReading.map fun r => (r.heartRate : ℚ)
  let lastBP := lastReading.map fun r => r.bloodPressure
  let lastOx := lastReading.map fun r => (r.oxygenSaturation : ℚ)
  let lastTemp := lastReading.map fun r => r.temperature
  match position with
  | Position.chest =>
    let n := g.next
    (⟨generateHeartRate lastHR (8 / 10) n.1, 120, 80, 98, 986 / 10⟩, n.2)
  | Position.wrist =>
    let n1 := g.next
    let n2 := n1.2.next
    (⟨generateHeartRate lastHR (9 / 10) n1.1, 120, 80,
      generateOxygenSat lastOx (9 / 10) n2.1, 986 / 10⟩, n2.2)
  | Position.arm =>
    let n1 := g.next
    let n2 := n1.2.next
    let bp := generateBloodPressure lastBP n1.1 n2.1
    (⟨72, bp.1, bp.2, 98, 986 / 10⟩, n2.2)
  | Position.head =>
    let n := g.next
    (⟨72, 120, 80, 98, generateTemperature lastTemp n.1⟩, n.2)
  | Position.torso_back =>
    let n1 := g.next
    let n2 := n1.2.next
    (⟨generateHeartRate lastHR (7 / 10) n1.1, 120, 80, 98,
      generateTemperature lastTemp n2.1⟩, n2.2)
  | Position.torso_front =>
    (⟨72, 120, 80, 98, 986 / 10⟩, g)

/-- `extractVitalSigns(bleFrame)`: classify quality, run the position switch
seeded by the device's last reading, scale by the quality factor, round,
stamp battery from the process-wide frame counter, classify connection, and
store the new reading as the device's last reading. -/
def extractVitalSigns (st : GenState) (frame : BLEWBANFrame) (g : RNG) :
    VitalSignsReading × GenState × RNG :=
  let lastReading := mapGet st.lastReadings frame.deviceId
  let signalQuality := classifyQuality frame.rssi frame.frameDecoded
  let bv := baseVitals frame.position lastReading g
  let qf := qualityFactor signalQuality
  let reading : VitalSignsReading :=
    { heartRate := jsRound (bv.1.heartRate * qf),
      bloodPressure := ⟨jsRound (bv.1.systolic * qf), jsRound (bv.1.diastolic * qf)⟩,
      oxygenSaturation := jsRound (bv.1.oxygenSat * qf),
      temperature := (jsRound (bv.1.temperature * qf * 10) : ℚ) / 10,
      timestamp := frame.timestamp,
      signalQuality := signalQuality,
      batteryLevel := max 10 (100 - (st.frameCounter : ℚ) * (1 / 100)),
      connectionStatus := classifyConnection frame.signalStrength }
  (reading,
   ⟨st.frameCounter, mapSet st.lastReadings frame.deviceId reading,
    st.signalNoiseFactors⟩, bv.2)

/-- The base-reading selection of `aggregateVitalSigns`:
`chestReading || goodReadings[0] || readings[0]`. -/
def aggBase (readings : List VitalSignsReading) : Option VitalSignsReading :=
  let chestReading :=
    readings.find? fun r => decide (r.signalQuality = SignalQuality.excellent)
  let goodReadings :=
    readings.filter fun r => decide (r.signalQuality ≠ SignalQuality.poor)
  match chestReading with
  | some r => some r
  | none =>
    match goodReadings.head? with
    | some r => some r
    | none => readings.head?

/-- `aggregateVitalSigns(readings)`: select a base reading, override heart
rate by the rounded mean of positive heart rates, coarsen quality to
good/fair by majority of non-poor readings, and fold connection status.
Returns `none` exactly on the empty input, on which the source would fault
(`readings[0]` is `undefined`). -/
def aggregateVitalSigns (readings : List VitalSignsReading) :
    Option VitalSignsReading :=
  let goodReadings :=
    readings.filter fun r => decide (r.signalQuality ≠ SignalQuality.poor)
  match aggBase readings with
  | none => none
  | some bestReading =>
    let hrReadings := readings.filter fun r => decide (r.heartRate > 0)
    let avgHeartRate :=
      if hrReadings.length > 0 then
        jsRound ((hrReadings.map fun r => (r.heartRate : ℚ)).sum /
          (hrReadings.length : ℚ))
      else bestReading.heartRate
    some { bestReading with
      heartRate := avgHeartRate,
      signalQuality :=
        if (goodReadings.length : ℚ) > (readings.length : ℚ) / 2 then
          SignalQuality.good
        else SignalQuality.fair,
      connectionStatus :=
        if readings.all fun r =>
            decide (r.connectionStatus = ConnectionStatus.connected) then
          ConnectionStatus.connected
        else if readings.any fun r =>
            decide (r.connectionStatus = ConnectionStatus.connected) then
          ConnectionStatus.weak
        else ConnectionStatus.disconnected }

/-- The per-sensor loop of `generateWBANReading`: for each catalog entry,
synthesize one frame for device id `patientId_positionId` and derive its
vitals, collecting both lists. -/
def genLoop (patientId : String) (now : ℤ) :
    List SensorPosition → GenState → RNG →
    (List BLEWBANFrame × List VitalSignsReading) × GenState × RNG
  | [], st, g => (([], []), st, g)
  | sensor :: rest, st, g =>
    let fr := generateBLEFrame st (patientId ++ "_" ++ sensor.id)
      sensor.position now g
    let vr := extractVitalSigns fr.2.1 fr.1 fr.2.2
    let tail := genLoop patientId now rest vr.2.1 vr.2.2
    ((fr.1 :: tail.1.1, vr.1 :: tail.1.2), tail.2)

/-- The `networkStats` record of `generateWBANReading`. -/
structure NetworkStats where
  totalDevices : Nat
  activeDevices : Nat
  averageRSSI : ℚ
  packetLossRate : ℚ
  encryptionStatus : String

/-- The composite return value of `generateWBANReading`. -/
structure NetworkReading where
  patientId : String
  vitals : VitalSignsReading
  bleFrames : List BLEWBANFrame
  networkStats : NetworkStats

/-- `generateWBANReading(patientId)`: run the per-sensor loop, aggregate the
vitals, and compute network statistics. -/
def generateWBANReading (st : GenState) (patientId : String) (now : ℤ)
    (g : RNG) : Option NetworkReading × GenState × RNG :=
  let run := genLoop patientId now WBAN_POSITIONS st g
  let bleFrames := run.1.1
  let vitalReadings := run.1.2
  match aggregateVitalSigns vitalReadings with
  | none => (none, run.2)
  | some agg =>
    let activeFrames := bleFrames.filter fun f => f.frameDecoded
    let avgRSSI := (bleFrames.map fun f => f.rssi).sum / (bleFrames.length : ℚ)
    let packetLoss :=
      ((bleFrames.length - activeFrames.length : ℤ) : ℚ) / (bleFrames.length : ℚ)
    (some { patientId := patientId,
            vitals := agg,
            bleFrames := bleFrames,
            networkStats :=
              { totalDevices := WBAN_POSITIONS.length,
                activeDevices := activeFrames.length,
                averageRSSI := (jsRound (avgRSSI * 10) : ℚ) / 10,
                packetLossRate := (jsRound (packetLoss * 1000) : ℚ) / 10,
                encryptionStatus := "AES-256" } }, run.2)

/-- A sequence of `generateBLEFrame` calls on one generator instance, each
call with its own device id, position and random stream, threading the
generator state through. -/
def runFrames (now : ℤ) : GenState → List (String × Position × RNG) →
    List BLEWBANFrame × GenState
  | st, [] => ([], st)
  | st, c :: rest =>
    let fr := generateBLEFrame st c.1 c.2.1 now c.2.2
    let tail := runFrames now fr.2.1 rest
    (fr.1 :: tail.1, tail.2)

/-- The spec's wording of the signal-quality classification (spec section 4.2):
poor if RSSI < -70 dBm OR decode failed; else fair if RSSI < -60; else good
if RSSI < -50; else excellent. -/
def specSignalQuality (rssi : ℚ) (decoded : Bool) : SignalQuality :=
  if rssi < -70 ∨ decoded = false then SignalQuality.poor
  else if rssi < -60 then SignalQuality.fair
  else if rssi < -50 then SignalQuality.good
  else SignalQuality.excellent

/-- The spec's channel set as enumerated in spec section 6:
{0..10, 12..36, 37, 38, 39}. -/
def specChannelSet : List ℤ :=
  ((List.range 11).map fun n => (n : ℤ)) ++
  ((List.range 25).map fun n => (n : ℤ) + 12) ++ [37, 38, 39]

/-- The oxygen-saturation walk exactly as claim C3 states it:
`clamp(lastValue * 0.95 + u, 85, 100)` with stability weight 0.95 and
default 98, where `u` is the uniform perturbation. -/
def specOxygenBase (lastValue : Option ℚ) (u : ℚ) : ℚ :=
  max 85 (min 100 (jsOr lastValue 98 * (95 / 100) + u))

/-- A random stream that always returns 1/2. -/
def halfRNG : RNG := ⟨fun _ => 1 / 2, 0⟩

/-- A random stream that always returns 0. -/
def zeroRNG : RNG := ⟨fun _ => 0, 0⟩

/-- A generator state with empty maps and frame counter 0. -/
def emptyState : GenState := ⟨0, [], []⟩

/-- A concrete wrist frame with poor signal (RSSI -80, decoded). -/
def poorWristFrame : BLEWBANFrame :=
  ⟨1, 0, "dev", Position.wrist, "9dbm", 1, 2402000000, 0, -80, 25, true, 150,
   [], [], []⟩

/-- A concrete wrist frame with excellent signal (RSSI -45, decoded). -/
def excWristFrame : BLEWBANFrame :=
  ⟨1, 0, "dev", Position.wrist, "9dbm", 1, 2402000000, 0, -45, (68750 : ℚ) / 1000,
   true, 150, [], [], []⟩

/-- A concrete reading with poor quality and disconnected status. -/
def poorReading : VitalSignsReading :=
  ⟨50, ⟨84, 56⟩, 69, 69, 0, SignalQuality.poor, 99, ConnectionStatus.disconnected⟩

/-- A concrete reading with good quality and connected status. -/
def goodReading : VitalSignsReading :=
  ⟨72, ⟨120, 80⟩, 98, 986 / 10, 0, SignalQuality.good, 99, ConnectionStatus.connected⟩

/-! ## Helper lemmas -/

theorem le_jsRound {n : ℤ} {x : ℚ} (h : (n : ℚ) ≤ x + 1 / 2) : n ≤ jsRound x :=
  Int.le_floor.mpr h

theorem jsRound_le {n : ℤ} {x : ℚ} (h : x + 1 / 2 < (n : ℚ) + 1) : jsRound x ≤ n := by
  have hlt : jsRound x < n + 1 := Int.floor_lt.mpr (by push_cast; linarith)
  omega

theorem jsRound_intCast (n : ℤ) : jsRound (n : ℚ) = n := by
  unfold jsRound
  rw [add_comm, Int.floor_add_int]
  norm_num

theorem clamp_bounds {lo hi : ℚ} (x : ℚ) (h : lo ≤ hi) :
    lo ≤ max lo (min hi x) ∧ max lo (min hi x) ≤ hi :=
  ⟨le_max_left _ _, max_le h (min_le_left _ _)⟩

theorem generateHeartRate_bounds (lastValue : Option ℚ) (s r : ℚ) :
    50 ≤ generateHeartRate lastValue s r ∧ generateHeartRate lastValue s r ≤ 150 :=
  clamp_bounds _ (by norm_num)

theorem generateOxygenSat_bounds (lastValue : Option ℚ) (s r : ℚ) :
    85 ≤ generateOxygenSat lastValue s r ∧ generateOxygenSat lastValue s r ≤ 100 :=
  clamp_bounds _ (by norm_num)

theorem generateTemperature_bounds (lastValue : Option ℚ) (r : ℚ) :
    95 ≤ generateTemperature lastValue r ∧ generateTemperature lastValue r ≤ 104 :=
  clamp_bounds _ (by norm_num)

theorem generateBloodPressure_sys_bounds (lastValue : Option BloodPressure) (r1 r2 : ℚ) :
    90 ≤ (generateBloodPressure lastValue r1 r2).1 ∧
      (generateBloodPressure lastValue r1 r2).1 ≤ 180 :=
  clamp_bounds _ (by norm_num)

theorem generateBloodPressure_dia_bounds (lastValue : Option BloodPressure) (r1 r2 : ℚ) :
    60 ≤ (generateBloodPressure lastValue r1 r2).2 ∧
      (generateBloodPressure lastValue r1 r2).2 ≤ 120 :=
  clamp_bounds _ (by norm_num)

theorem qualityFactor_bounds (q : SignalQuality) :
    7 / 10 ≤ qualityFactor q ∧ qualityFactor q ≤ 1 := by
  cases q <;> norm_num [qualityFactor]

theorem baseVitals_bounds (position : Position)
    (lastReading : Option VitalSignsReading) (g : RNG) :
    (50 ≤ (baseVitals position lastReading g).1.heartRate ∧
      (baseVitals position lastReading g).1.heartRate ≤ 150) ∧
    (90 ≤ (baseVitals position lastReading g).1.systolic ∧
      (baseVitals position lastReading g).1.systolic ≤ 180) ∧
    (60 ≤ (baseVitals position lastReading g).1.diastolic ∧
      (baseVitals position lastReading g).1.diastolic ≤ 120) ∧
    (85 ≤ (baseVitals position lastReading g).1.oxygenSat ∧
      (baseVitals position lastReading g).1.oxygenSat ≤ 100) ∧
    (95 ≤ (baseVitals position lastReading g).1.temperature ∧
      (baseVitals position lastReading g).1.temperature ≤ 104) := by
  cases position
  case head =>
    simp only [baseVitals]
    exact ⟨by norm_num, by norm_num, by norm_num, by norm_num,
           generateTemperature_bounds _ _⟩
  case arm =>
    simp only [baseVitals]
    exact ⟨by norm_num, generateBloodPressure_sys_bounds _ _ _,
           generateBloodPressure_dia_bounds _ _ _, by norm_num, by norm_num⟩
  case wrist =>
    simp only [baseVitals]
    exact ⟨generateHeartRate_bounds _ _ _, by norm_num, by norm_num,
           generateOxygenSat_bounds _ _ _, by norm_num⟩
  case chest =>
    simp only [baseVitals]
    exact ⟨generateHeartRate_bounds _ _ _, by norm_num, by norm_num, by norm_num,
           by norm_num⟩
  case torso_front =>
    simp only [baseVitals]
    exact ⟨by norm_num, by norm_num, by norm_num, by norm_num, by norm_num⟩
  case torso_back =>
    simp only [baseVitals]
    exact ⟨generateHeartRate_bounds _ _ _, by norm_num, by norm_num, by norm_num,
           generateTemperature_bounds _ _⟩

theorem scaled_vital_bounds {lo hi b qf : ℚ} {m n : ℤ}
    (hb1 : lo ≤ b) (hb2 : b ≤ hi) (hlo : 0 ≤ lo)
    (hq1 : 7 / 10 ≤ qf) (hq2 : qf ≤ 1)
    (hm : (m : ℚ) ≤ 7 / 10 * lo + 1 / 2) (hn : hi ≤ (n : ℚ)) :
    m ≤ jsRound (b * qf) ∧ jsRound (b * qf) ≤ n := by
  have key1 : lo * (7 / 10) ≤ b * qf := by nlinarith
  have key2 : b * qf ≤ hi := by nlinarith
  exact ⟨le_jsRound (by linarith), jsRound_le (by linarith)⟩

theorem exact_vital_bounds {lo hi b : ℚ} {m n : ℤ}
    (hb1 : lo ≤ b) (hb2 : b ≤ hi)
    (hm : (m : ℚ) ≤ lo + 1 / 2) (hn : hi ≤ (n : ℚ)) :
    m ≤ jsRound b ∧ jsRound b ≤ n :=
  ⟨le_jsRound (by linarith), jsRound_le (by linarith)⟩

theorem temp_bounds {t qf : ℚ} (h1 : 95 ≤ t) (h2 : t ≤ 104)
    (hq1 : 7 / 10 ≤ qf) (hq2 : qf ≤ 1) :
    133 / 2 ≤ (jsRound (t * qf * 10) : ℚ) / 10 ∧
      (jsRound (t * qf * 10) : ℚ) / 10 ≤ 104 := by
  have hl : (665 : ℤ) ≤ jsRound (t * qf * 10) := le_jsRound (by nlinarith)
  have hu : jsRound (t * qf * 10) ≤ (1040 : ℤ) := jsRound_le (by push_cast; nlinarith)
  have hl' : (665 : ℚ) ≤ (jsRound (t * qf * 10) : ℚ) := by exact_mod_cast hl
  have hu' : (jsRound (t * qf * 10) : ℚ) ≤ 1040 := by exact_mod_cast hu
  constructor <;> linarith

theorem temp_bounds_exact {t : ℚ} (h1 : 95 ≤ t) (h2 : t ≤ 104) :
    95 ≤ (jsRound (t * 10) : ℚ) / 10 ∧ (jsRound (t * 10) : ℚ) / 10 ≤ 104 := by
  have hl : (950 : ℤ) ≤ jsRound (t * 10) := le_jsRound (by nlinarith)
  have hu : jsRound (t * 10) ≤ (1040 : ℤ) := jsRound_le (by push_cast; nlinarith)
  have hl' : (950 : ℚ) ≤ (jsRound (t * 10) : ℚ) := by exact_mod_cast hl
  have hu' : (jsRound (t * 10) : ℚ) ≤ 1040 := by exact_mod_cast hu
  constructor <;> linarith

/-! ## Claim C1 -/

/-- Claim C1 counterexample: with empty prior state and a decoded wrist frame
at RSSI -80 dBm (signal quality poor, quality factor 0.7) and all random
draws equal to 1/2, the derived reading has heart rate 45 < 50 and oxygen
saturation 62 < 85 — both outside the documented bands [50,150] and
[85,100], so the claim as stated is false. -/
theorem claim_C1_cex :
    (extractVitalSigns emptyState poorWristFrame halfRNG).1.heartRate = 45 ∧
    (extractVitalSigns emptyState poorWristFrame halfRNG).1.oxygenSaturation = 62 ∧
    ¬(50 ≤ (extractVitalSigns emptyState poorWristFrame halfRNG).1.heartRate) ∧
    ¬(85 ≤ (extractVitalSigns emptyState poorWristFrame halfRNG).1.oxygenSaturation) := by
  norm_num [extractVitalSigns, emptyState, poorWristFrame, halfRNG, baseVitals,
    mapGet, classifyQuality, qualityFactor, generateHeartRate, generateOxygenSat,
    jsOr, jsRound, RNG.next]

/-- Claim C1 (amended): quality-factor scaling is applied after the band
clamps, so for every call, regardless of prior stored last-reading state and
of the input frame's fields, each vital of the returned reading lies in its
documented band stretched downward by the worst quality factor 0.7 (and then
rounded): heart rate in [35,150], systolic in [63,180], diastolic in
[42,120], oxygen saturation in [60,100], temperature in [66.5,104]; when the
signal quality is excellent (factor 1) the originally documented bands
[50,150], [90,180], [60,120], [85,100], [95,104] do hold. -/
theorem claim_C1_amended (st : GenState) (frame : BLEWBANFrame) (g : RNG) :
    (35 ≤ (extractVitalSigns st frame g).1.heartRate ∧
      (extractVitalSigns st frame g).1.heartRate ≤ 150) ∧
    (63 ≤ (extractVitalSigns st frame g).1.bloodPressure.systolic ∧
      (extractVitalSigns st frame g).1.bloodPressure.systolic ≤ 180) ∧
    (42 ≤ (extractVitalSigns st frame g).1.bloodPressure.diastolic ∧
      (extractVitalSigns st frame g).1.bloodPressure.diastolic ≤ 120) ∧
    (60 ≤ (extractVitalSigns st frame g).1.oxygenSaturation ∧
      (extractVitalSigns st frame g).1.oxygenSaturation ≤ 100) ∧
    (133 / 2 ≤ (extractVitalSigns st frame g).1.temperature ∧
      (extractVitalSigns st frame g).1.temperature ≤ 104) ∧
    ((extractVitalSigns st frame g).1.signalQuality = SignalQuality.excellent →
      (50 ≤ (extractVitalSigns st frame g).1.heartRate ∧
        (extractVitalSigns st frame g).1.heartRate ≤ 150) ∧
      (90 ≤ (extractVitalSigns st frame g).1.bloodPressure.systolic ∧
        (extractVitalSigns st frame g).1.bloodPressure.systolic ≤ 180) ∧
      (60 ≤ (extractVitalSigns st frame g).1.bloodPressure.diastolic ∧
        (extractVitalSigns st frame g).1.bloodPressure.diastolic ≤ 120) ∧
      (85 ≤ (extractVitalSigns st frame g).1.oxygenSaturation ∧
        (extractVitalSigns st frame g).1.oxygenSaturation ≤ 100) ∧
      (95 ≤ (extractVitalSigns st frame g).1.temperature ∧
        (extractVitalSigns st frame g).1.temperature ≤ 104)) := by
  obtain ⟨⟨hhr1, hhr2⟩, ⟨hsy1, hsy2⟩, ⟨hdi1, hdi2⟩, ⟨hox1, hox2⟩, ⟨hte1, hte2⟩⟩ :=
    baseVitals_bounds frame.position (mapGet st.lastReadings frame.deviceId) g
  obtain ⟨hq1, hq2⟩ := qualityFactor_bounds (classifyQuality frame.rssi frame.frameDecoded)
  simp only [extractVitalSigns]
  refine ⟨?_, ?_, ?_, ?_, ?_, ?_⟩
  · exact scaled_vital_bounds hhr1 hhr2 (by norm_num) hq1 hq2 (by norm_num) (by norm_num)
  · exact scaled_vital_bounds hsy1 hsy2 (by norm_num) hq1 hq2 (by norm_num) (by norm_num)
  · exact scaled_vital_bounds hdi1 hdi2 (by norm_num) hq1 hq2 (by norm_num) (by norm_num)
  · exact scaled_vital_bounds hox1 hox2 (by norm_num) hq1 hq2 (by norm_num) (by norm_num)
  · exact temp_bounds hte1 hte2 hq1 hq2
  · intro hq
    rw [hq]
    simp only [qualityFactor, mul_one]
    exact ⟨exact_vital_bounds hhr1 hhr2 (by norm_num) (by norm_num),
           exact_vital_bounds hsy1 hsy2 (by norm_num) (by norm_num),
           exact_vital_bounds hdi1 hdi2 (by norm_num) (by norm_num),
           exact_vital_bounds hox1 hox2 (by norm_num) (by norm_num),
           temp_bounds_exact hte1 hte2⟩

/-- Claim C1 witness: at a concrete excellent-quality wrist frame the amended
theorem's excellent clause yields the documented bands. -/
theorem claim_C1_witness :
    (50 ≤ (extractVitalSigns emptyState excWristFrame halfRNG).1.heartRate ∧
      (extractVitalSigns emptyState excWristFrame halfRNG).1.heartRate ≤ 150) ∧
    (90 ≤ (extractVitalSigns emptyState excWristFrame halfRNG).1.bloodPressure.systolic ∧
      (extractVitalSigns emptyState excWristFrame halfRNG).1.bloodPressure.systolic ≤ 180) ∧
    (60 ≤ (extractVitalSigns emptyState excWristFrame halfRNG).1.bloodPressure.diastolic ∧
      (extractVitalSigns emptyState excWristFrame halfRNG).1.bloodPressure.diastolic ≤ 120) ∧
    (85 ≤ (extractVitalSigns emptyState excWristFrame halfRNG).1.oxygenSaturation ∧
      (extractVitalSigns emptyState excWristFrame halfRNG).1.oxygenSaturation ≤ 100) ∧
    (95 ≤ (extractVitalSigns emptyState excWristFrame halfRNG).1.temperature ∧
      (extractVitalSigns emptyState excWristFrame halfRNG).1.temperature ≤ 104) :=
  (claim_C1_amended emptyState excWristFrame halfRNG).2.2.2.2.2
    (by norm_num [extractVitalSigns, excWristFrame, classifyQuality])

/-! ## Random-stream threading lemmas -/

theorem pickTxPower_rng (g : RNG) :
    (pickTxPower g).2 = ⟨g.f, g.idx + (if g.f g.idx > 7 / 10 then 1 else 2)⟩ := by
  by_cases h : g.f g.idx > 7 / 10
  · simp [pickTxPower, RNG.next, h]
  · simp only [pickTxPower, RNG.next, h, if_false, ite_false]
    split <;> rfl

theorem randList_rng (n : Nat) (h : ℚ → ℚ) (g : RNG) :
    (randList n h g).2 = ⟨g.f, g.idx + n⟩ := by
  induction n generalizing g with
  | zero => rfl
  | succ m ih =>
    simp only [randList, RNG.next, ih, RNG.mk.injEq, true_and]
    omega

/-- The RSSI of a synthesized frame is the -40 dBm base plus the noise draw
(the one consumed after tx power, channel, frame length and the 20 I/Q
samples) scaled by the reciprocal of the looked-up noise factor, defaulting
to 1 when the device id has no entry in the noise-factor map. -/
theorem generateBLEFrame_rssi (st : GenState) (deviceId : String)
    (position : Position) (now : ℤ) (g : RNG) :
    (generateBLEFrame st deviceId position now g).1.rssi =
      -40 + (g.f (g.idx + (if g.f g.idx > 7 / 10 then 1 else 2) + 22) * 20 - 10) *
        (1 / jsOr (mapGet st.signalNoiseFactors deviceId) 1) := by
  by_cases h : g.f g.idx > 7 / 10 <;>
    simp [generateBLEFrame, pickTxPower_rng, randList_rng, RNG.next, h]

/-- The constructor's noise-factor map: one entry per catalog position, in
catalog order, each `draw * 0.1 + 0.9`. -/
theorem mkGenerator_factors (rng : RNG) :
    (mkGenerator rng).1.signalNoiseFactors =
      [("chest", rng.f rng.idx * (1 / 10) + 9 / 10),
       ("wrist_l", rng.f (rng.idx + 1) * (1 / 10) + 9 / 10),
       ("wrist_r", rng.f (rng.idx + 2) * (1 / 10) + 9 / 10),
       ("head", rng.f (rng.idx + 3) * (1 / 10) + 9 / 10),
       ("arm_l", rng.f (rng.idx + 4) * (1 / 10) + 9 / 10),
       ("torso_back", rng.f (rng.idx + 5) * (1 / 10) + 9 / 10)] := rfl

/-! ## Claim C2 -/

/-- Claim C2 counterexample: construct the generator with the all-zeros
stream (every construction factor is exactly 0.9) and generate a frame for
device id "P001_chest" with the all-zeros stream.  No noise factor was
assigned to that device at construction (the lookup returns `none`), and the
resulting RSSI is -50 = -40 - 10/1, which differs from the -40 - 10/0.9 that
any construction-assigned factor would have produced — so the RSSI is not
scaled by a device-unique factor assigned at construction. -/
theorem claim_C2_cex :
    mapGet (mkGenerator zeroRNG).1.signalNoiseFactors "P001_chest" = none ∧
    (generateBLEFrame (mkGenerator zeroRNG).1 "P001_chest" Position.chest 0
      zeroRNG).1.rssi = -50 ∧
    ((mkGenerator zeroRNG).1.signalNoiseFactors.Forall fun kv => kv.2 = 9 / 10) ∧
    (-40 + ((0 : ℚ) * 20 - 10) * (1 / (9 / 10)) ≠ -50) := by
  have hmiss : mapGet (mkGenerator zeroRNG).1.signalNoiseFactors "P001_chest" = none := by
    rw [mkGenerator_factors]
    simp [mapGet]
  refine ⟨hmiss, ?_, ?_, by norm_num⟩
  · rw [generateBLEFrame_rssi, hmiss]
    norm_num [zeroRNG, jsOr]
  · rw [mkGenerator_factors]
    norm_num [zeroRNG, List.Forall]

/-- Claim C2 (corrected, amended): for every frame produced by
`generateBLEFrame`, the RSSI equals -40 dBm plus the uniform noise
`draw * 20 - 10` scaled by the reciprocal of the noise factor stored under
the frame's device id in the construction-time map when such an entry
exists, and by the reciprocal of the default 1 otherwise; the construction
map holds exactly one factor per catalog position id (not per arbitrary
device), each drawn once at construction as `draw * 0.1 + 0.9`, hence lying
in [0.9, 1). -/
theorem claim_C2_amended (st : GenState) (deviceId : String)
    (position : Position) (now : ℤ) (g : RNG) (rng : RNG) (hU : rng.Unit01) :
    (generateBLEFrame st deviceId position now g).1.rssi =
      -40 + (g.f (g.idx + (if g.f g.idx > 7 / 10 then 1 else 2) + 22) * 20 - 10) *
        (1 / jsOr (mapGet st.signalNoiseFactors deviceId) 1) ∧
    (mkGenerator rng).1.signalNoiseFactors =
      [("chest", rng.f rng.idx * (1 / 10) + 9 / 10),
       ("wrist_l", rng.f (rng.idx + 1) * (1 / 10) + 9 / 10),
       ("wrist_r", rng.f (rng.idx + 2) * (1 / 10) + 9 / 10),
       ("head", rng.f (rng.idx + 3) * (1 / 10) + 9 / 10),
       ("arm_l", rng.f (rng.idx + 4) * (1 / 10) + 9 / 10),
       ("torso_back", rng.f (rng.idx + 5) * (1 / 10) + 9 / 10)] ∧
    ((mkGenerator rng).1.signalNoiseFactors.Forall fun kv =>
      9 / 10 ≤ kv.2 ∧ kv.2 < 1) := by
  have hbound : ∀ k : Nat,
      9 / 10 ≤ rng.f k * (1 / 10) + 9 / 10 ∧ rng.f k * (1 / 10) + 9 / 10 < 1 := by
    intro k
    obtain ⟨h0, h1⟩ := hU k
    constructor <;> linarith
  exact ⟨generateBLEFrame_rssi st deviceId position now g, mkGenerator_factors rng,
    ⟨hbound _, hbound _, hbound _, hbound _, hbound _, hbound _⟩⟩

/-- Claim C2 witness: at the concrete all-halves stream the amended theorem
gives the RSSI formula and factors in [0.9, 1). -/
theorem claim_C2_witness :
    ((mkGenerator halfRNG).1.signalNoiseFactors.Forall fun kv =>
      9 / 10 ≤ kv.2 ∧ kv.2 < 1) :=
  (claim_C2_amended emptyState "dev" Position.chest 0 halfRNG halfRNG
    (by intro n; norm_num [halfRNG])).2.2

/-! ## Claim C3 -/

/-- Claim C3 counterexample: at a fresh state, an excellent-quality decoded
wrist frame and all draws 1/2 (zero perturbation), the derived oxygen
saturation is 88 = round(98 * 0.9), whereas the claimed walk with stability
weight 0.95 yields round(98 * 0.95) = 93: the wrist call site passes
stability 0.9, not the claimed 0.95. -/
theorem claim_C3_cex :
    excWristFrame.position = Position.wrist ∧
    (extractVitalSigns emptyState excWristFrame halfRNG).1.signalQuality =
      SignalQuality.excellent ∧
    (extractVitalSigns emptyState excWristFrame halfRNG).1.oxygenSaturation = 88 ∧
    jsRound (specOxygenBase none ((1 / 2 - 1 / 2) * 2) *
      qualityFactor SignalQuality.excellent) = 93 ∧
    ((88 : ℤ) ≠ 93) := by
  refine ⟨rfl, ?_, ?_, ?_, by norm_num⟩
  · norm_num [extractVitalSigns, excWristFrame, classifyQuality]
  · norm_num [extractVitalSigns, excWristFrame, emptyState, halfRNG, baseVitals,
      mapGet, classifyQuality, qualityFactor, generateHeartRate, generateOxygenSat,
      jsOr, jsRound, RNG.next]
  · norm_num [specOxygenBase, jsOr, jsRound, qualityFactor]

/-- Claim C3 (corrected, amended): for a frame with wrist placement, the
derived oxygen-saturation base value is the bounded random walk
`clamp(lastValue * 0.9 + uniform(-1, 1), 85, 100)` with stability weight 0.9
(the call site overrides the function's default 0.95) and default 98 on
first observation; the stored output is that base value times the quality
factor, rounded. -/
theorem claim_C3_amended (st : GenState) (frame : BLEWBANFrame) (g : RNG)
    (hpos : frame.position = Position.wrist) :
    (extractVitalSigns st frame g).1.oxygenSaturation =
      jsRound (max 85 (min 100
        (jsOr ((mapGet st.lastReadings frame.deviceId).map fun r =>
          (r.oxygenSaturation : ℚ)) 98 * (9 / 10) + (g.f (g.idx + 1) - 1 / 2) * 2)) *
        qualityFactor (classifyQuality frame.rssi frame.frameDecoded)) := by
  simp only [extractVitalSigns, hpos, baseVitals, generateOxygenSat, RNG.next]

/-- Claim C3 witness: the amended walk evaluated at the concrete excellent
wrist frame. -/
theorem claim_C3_witness :
    (extractVitalSigns emptyState excWristFrame halfRNG).1.oxygenSaturation =
      jsRound (max 85 (min 100
        (jsOr ((mapGet emptyState.lastReadings excWristFrame.deviceId).map fun r =>
          (r.oxygenSaturation : ℚ)) 98 * (9 / 10) +
          (halfRNG.f (halfRNG.idx + 1) - 1 / 2) * 2)) *
        qualityFactor (classifyQuality excWristFrame.rssi excWristFrame.frameDecoded)) :=
  claim_C3_amended emptyState excWristFrame halfRNG rfl

/-! ## Claim C4 -/

theorem getD_mem_of_lt {l : List ℤ} {i : Nat} (d : ℤ) (h : i < l.length) :
    l.getD i d ∈ l := by
  rw [List.getD_eq_getElem l d h]
  exact List.getElem_mem h

/-- The channel of a synthesized frame is the `BLE_CHANNELS` entry selected
by the floor of the channel draw scaled by the list length. -/
theorem generateBLEFrame_channel (st : GenState) (deviceId : String)
    (position : Position) (now : ℤ) (g : RNG) :
    (generateBLEFrame st deviceId position now g).1.channelNumber =
      BLE_CHANNELS.getD
        (jsFloor (g.f (g.idx + (if g.f g.idx > 7 / 10 then 1 else 2)) *
          (BLE_CHANNELS.length : ℚ))).toNat 0 := by
  by_cases h : g.f g.idx > 7 / 10 <;>
    simp [generateBLEFrame, pickTxPower_rng, RNG.next, h]

/-- Claim C4 (confirmed): every generated frame's channel lies in the fixed
39-value channel set enumerated in spec section 6 ({0..10, 12..36, 37, 38,
39}); that set equals the source's `BLE_CHANNELS`, excludes index 11, has 39
elements, and the carrier frequency is 2402000000 + channel * 2000000 Hz. -/
theorem claim_C4 (st : GenState) (deviceId : String) (position : Position)
    (now : ℤ) (g : RNG) (hU : g.Unit01) :
    (generateBLEFrame st deviceId position now g).1.channelNumber ∈ specChannelSet ∧
    BLE_CHANNELS = specChannelSet ∧
    ((11 : ℤ) ∉ BLE_CHANNELS) ∧
    BLE_CHANNELS.length = 39 ∧
    (generateBLEFrame st deviceId position now g).1.frequency =
      2402000000 +
        (generateBLEFrame st deviceId position now g).1.channelNumber * 2000000 := by
  have hset : BLE_CHANNELS = specChannelSet := by decide
  refine ⟨?_, hset, by decide, by decide, rfl⟩
  rw [← hset, generateBLEFrame_channel]
  apply getD_mem_of_lt
  obtain ⟨h0, h1⟩ := hU (g.idx + (if g.f g.idx > 7 / 10 then 1 else 2))
  have hlen : (BLE_CHANNELS.length : ℚ) = 39 := by norm_num [BLE_CHANNELS]
  rw [hlen]
  simp only [jsFloor]
  have hx0 : 0 ≤ g.f (g.idx + (if g.f g.idx > 7 / 10 then 1 else 2)) * (39 : ℚ) := by
    nlinarith
  have hx1 : g.f (g.idx + (if g.f g.idx > 7 / 10 then 1 else 2)) * (39 : ℚ) < 39 := by
    nlinarith
  have hf0 : 0 ≤ Int.floor
      (g.f (g.idx + (if g.f g.idx > 7 / 10 then 1 else 2)) * (39 : ℚ)) :=
    Int.floor_nonneg.mpr hx0
  have hf1 : Int.floor
      (g.f (g.idx + (if g.f g.idx > 7 / 10 then 1 else 2)) * (39 : ℚ)) < 39 :=
    Int.floor_lt.mpr (by exact_mod_cast hx1)
  have hL : BLE_CHANNELS.length = 39 := by decide
  omega

/-- Claim C4 witness: channel membership and the frequency equation at a
concrete frame. -/
theorem claim_C4_witness :
    (generateBLEFrame emptyState "dev" Position.chest 0 halfRNG).1.channelNumber ∈
      specChannelSet ∧
    (generateBLEFrame emptyState "dev" Position.chest 0 halfRNG).1.frequency =
      2402000000 +
        (generateBLEFrame emptyState "dev" Position.chest 0 halfRNG).1.channelNumber *
          2000000 := by
  have h := claim_C4 emptyState "dev" Position.chest 0 halfRNG
    (by intro n; norm_num [halfRNG])
  exact ⟨h.1, h.2.2.2.2⟩

/-! ## Claim C5 -/

/-- Claim C5 (confirmed): the derived reading's signal quality is exactly the
spec's ordered cascade — poor if RSSI < -70 or decode failed; else fair if
RSSI < -60; else good if RSSI < -50; else excellent — with each branch
reached exactly under its stated precedence conditions. -/
theorem claim_C5 (st : GenState) (frame : BLEWBANFrame) (g : RNG) :
    (extractVitalSigns st frame g).1.signalQuality =
      specSignalQuality frame.rssi frame.frameDecoded ∧
    (frame.rssi < -70 ∨ frame.frameDecoded = false →
      (extractVitalSigns st frame g).1.signalQuality = SignalQuality.poor) ∧
    (¬(frame.rssi < -70 ∨ frame.frameDecoded = false) → frame.rssi < -60 →
      (extractVitalSigns st frame g).1.signalQuality = SignalQuality.fair) ∧
    (¬(frame.rssi < -70 ∨ frame.frameDecoded = false) → ¬(frame.rssi < -60) →
      frame.rssi < -50 →
      (extractVitalSigns st frame g).1.signalQuality = SignalQuality.good) ∧
    (¬(frame.rssi < -70 ∨ frame.frameDecoded = false) → ¬(frame.rssi < -60) →
      ¬(frame.rssi < -50) →
      (extractVitalSigns st frame g).1.signalQuality = SignalQuality.excellent) := by
  have hsq : (extractVitalSigns st frame g).1.signalQuality =
      classifyQuality frame.rssi frame.frameDecoded := rfl
  refine ⟨rfl, ?_, ?_, ?_, ?_⟩
  · intro h1
    rw [hsq]
    unfold classifyQuality
    rw [if_pos h1]
  · intro h1 h2
    rw [hsq]
    unfold classifyQuality
    rw [if_neg h1, if_pos h2]
  · intro h1 h2 h3
    rw [hsq]
    unfold classifyQuality
    rw [if_neg h1, if_neg h2, if_pos h3]
  · intro h1 h2 h3
    rw [hsq]
    unfold classifyQuality
    rw [if_neg h1, if_neg h2, if_neg h3]

/-- Claim C5 witness: the poor branch at the RSSI -80 frame and the excellent
branch at the RSSI -45 frame. -/
theorem claim_C5_witness :
    (extractVitalSigns emptyState poorWristFrame halfRNG).1.signalQuality =
      SignalQuality.poor ∧
    (extractVitalSigns emptyState excWristFrame halfRNG).1.signalQuality =
      SignalQuality.excellent := by
  constructor
  · exact (claim_C5 emptyState poorWristFrame halfRNG).2.1
      (Or.inl (by norm_num [poorWristFrame]))
  · exact (claim_C5 emptyState excWristFrame halfRNG).2.2.2.2
      (by norm_num [excWristFrame]) (by norm_num [excWristFrame])
      (by norm_num [excWristFrame])

/-! ## Claim C6 -/

theorem aggBase_isSome (readings : List VitalSignsReading) (hne : readings ≠ []) :
    ∃ b, aggBase readings = some b := by
  simp only [aggBase]
  rcases hfind : readings.find? fun r =>
      decide (r.signalQuality = SignalQuality.excellent) with _ | r
  · rcases hhead : (readings.filter fun r =>
        decide (r.signalQuality ≠ SignalQuality.poor)).head? with _ | r2
    · cases hh : readings.head? with
      | none => exact absurd (List.head?_eq_none_iff.mp hh) hne
      | some a => exact ⟨a, by simp only [hfind, hhead, hh]⟩
    · exact ⟨r2, by simp only [hfind, hhead]⟩
  · exact ⟨r, by simp only [hfind]⟩

theorem half_count_iff (c n : Nat) : ((c : ℚ) > (n : ℚ) / 2) ↔ 2 * c > n := by
  rw [gt_iff_lt, div_lt_iff₀ (by norm_num : (0 : ℚ) < 2), mul_comm, gt_iff_lt]
  exact_mod_cast Iff.rfl

/-- Claim C6 (confirmed): for every non-empty reading sequence, the aggregate
quality is good when more than half the readings are not poor and fair
otherwise; the aggregate connection status is connected when all readings are
connected, weak when some but not all are, and disconnected when none are;
in particular all-poor readings aggregate to fair quality. -/
theorem claim_C6 (readings : List VitalSignsReading) (hne : readings ≠ []) :
    ((aggregateVitalSigns readings).map fun a => a.signalQuality) =
      some (if 2 * (readings.countP fun r =>
            decide (r.signalQuality ≠ SignalQuality.poor)) > readings.length
          then SignalQuality.good else SignalQuality.fair) ∧
    ((∀ r ∈ readings, r.connectionStatus = ConnectionStatus.connected) →
      ((aggregateVitalSigns readings).map fun a => a.connectionStatus) =
        some ConnectionStatus.connected) ∧
    ((∃ r ∈ readings, r.connectionStatus = ConnectionStatus.connected) ∧
      ¬(∀ r ∈ readings, r.connectionStatus = ConnectionStatus.connected) →
      ((aggregateVitalSigns readings).map fun a => a.connectionStatus) =
        some ConnectionStatus.weak) ∧
    ((∀ r ∈ readings, r.connectionStatus ≠ ConnectionStatus.connected) →
      ((aggregateVitalSigns readings).map fun a => a.connectionStatus) =
        some ConnectionStatus.disconnected) ∧
    ((∀ r ∈ readings, r.signalQuality = SignalQuality.poor) →
      ((aggregateVitalSigns readings).map fun a => a.signalQuality) =
        some SignalQuality.fair) := by
  obtain ⟨b, hb⟩ := aggBase_isSome readings hne
  have hq : ((aggregateVitalSigns readings).map fun a => a.signalQuality) =
      some (if 2 * (readings.countP fun r =>
            decide (r.signalQuality ≠ SignalQuality.poor)) > readings.length
          then SignalQuality.good else SignalQuality.fair) := by
    simp only [aggregateVitalSigns, hb, Option.map_some']
    rw [List.countP_eq_length_filter]
    exact congrArg some (if_congr (half_count_iff _ _) rfl rfl)
  refine ⟨hq, ?_, ?_, ?_, ?_⟩
  · intro h
    have hall : (readings.all fun r =>
        decide (r.connectionStatus = ConnectionStatus.connected)) = true :=
      List.all_eq_true.mpr fun r hr => decide_eq_true (h r hr)
    simp [aggregateVitalSigns, hb, hall]
  · rintro ⟨⟨r0, hr0, hc0⟩, hnall⟩
    have hall : (readings.all fun r =>
        decide (r.connectionStatus = ConnectionStatus.connected)) = false := by
      rw [List.all_eq_false]
      by_contra hcon
      push_neg at hcon
      exact hnall fun r hr => of_decide_eq_true (hcon r hr)
    have hany : (readings.any fun r =>
        decide (r.connectionStatus = ConnectionStatus.connected)) = true :=
      List.any_eq_true.mpr ⟨r0, hr0, decide_eq_true hc0⟩
    simp [aggregateVitalSigns, hb, hall, hany]
  · intro h
    have hall : (readings.all fun r =>
        decide (r.connectionStatus = ConnectionStatus.connected)) = false := by
      obtain ⟨a, ha⟩ := List.exists_mem_of_ne_nil readings hne
      exact List.all_eq_false.mpr ⟨a, ha, by simp [h a ha]⟩
    have hany : (readings.any fun r =>
        decide (r.connectionStatus = ConnectionStatus.connected)) = false :=
      List.any_eq_false.mpr fun r hr => by simp [h r hr]
    simp [aggregateVitalSigns, hb, hall, hany]
  · intro h
    rw [hq]
    have hzero : (readings.countP fun r =>
        decide (r.signalQuality ≠ SignalQuality.poor)) = 0 :=
      List.countP_eq_zero.mpr fun r hr => by simp [h r hr]
    rw [hzero]
    simp

/-- Claim C6 witness: a single poor disconnected reading aggregates to fair
quality and disconnected status. -/
theorem claim_C6_witness :
    ((aggregateVitalSigns [poorReading]).map fun a => a.signalQuality) =
      some SignalQuality.fair ∧
    ((aggregateVitalSigns [poorReading]).map fun a => a.connectionStatus) =
      some ConnectionStatus.disconnected := by
  have h := claim_C6 [poorReading] (by simp)
  refine ⟨h.2.2.2.2 ?_, h.2.2.2.1 ?_⟩
  · intro r hr
    rw [List.mem_singleton.mp hr]
    rfl
  · intro r hr
    rw [List.mem_singleton.mp hr]
    decide

/-! ## Claim C7 -/

/-- Claim C7 (confirmed): aggregating a single-element reading sequence
returns that reading's heart rate (the mean of one positive heart rate, or
the base fallback when it is not positive) and copies blood pressure, oxygen
saturation, temperature, timestamp and battery level unchanged. -/
theorem claim_C7 (r : VitalSignsReading) :
    ((aggregateVitalSigns [r]).map fun a => a.heartRate) = some r.heartRate ∧
    ((aggregateVitalSigns [r]).map fun a => a.bloodPressure) = some r.bloodPressure ∧
    ((aggregateVitalSigns [r]).map fun a => a.oxygenSaturation) =
      some r.oxygenSaturation ∧
    ((aggregateVitalSigns [r]).map fun a => a.temperature) = some r.temperature ∧
    ((aggregateVitalSigns [r]).map fun a => a.timestamp) = some r.timestamp ∧
    ((aggregateVitalSigns [r]).map fun a => a.batteryLevel) = some r.batteryLevel := by
  have hb : aggBase [r] = some r := by
    cases hq : r.signalQuality <;> simp [aggBase, hq]
  by_cases hhr : r.heartRate > 0 <;>
    simp [aggregateVitalSigns, hb, hhr, jsRound_intCast, div_one]

/-! ## Claim C8 -/

theorem generateBLEFrame_frameNumber (st : GenState) (d : String) (p : Position)
    (now : ℤ) (g : RNG) :
    (generateBLEFrame st d p now g).1.frameNumber = st.frameCounter + 1 := rfl

theorem generateBLEFrame_counter (st : GenState) (d : String) (p : Position)
    (now : ℤ) (g : RNG) :
    (generateBLEFrame st d p now g).2.1.frameCounter = st.frameCounter + 1 := rfl

theorem runFrames_map (now : ℤ) (st : GenState)
    (calls : List (String × Position × RNG)) :
    ((runFrames now st calls).1.map fun f => f.frameNumber) =
      List.range' (st.frameCounter + 1) calls.length := by
  induction calls generalizing st with
  | nil => rfl
  | cons c rest ih =>
    simp only [runFrames, List.map_cons, List.length_cons, List.range'_succ,
      generateBLEFrame_frameNumber, generateBLEFrame_counter, ih]

/-- Claim C8 (confirmed): within one generator instance, frame sequence
numbers over any sequence of `generateBLEFrame` calls are exactly 1, 2, 3,
..., i.e. they start at 1 on the first call, increase by exactly 1 per call,
and are strictly increasing (hence unique). -/
theorem claim_C8 (rng : RNG) (now : ℤ)
    (calls : List (String × Position × RNG)) :
    ((runFrames now (mkGenerator rng).1 calls).1.map fun f => f.frameNumber) =
      List.range' 1 calls.length ∧
    List.Chain' (fun a b => a < b)
      ((runFrames now (mkGenerator rng).1 calls).1.map fun f => f.frameNumber) := by
  have h := runFrames_map now (mkGenerator rng).1 calls
  have hz : (mkGenerator rng).1.frameCounter = 0 := rfl
  rw [hz, Nat.zero_add] at h
  refine ⟨h, ?_⟩
  rw [h]
  exact (List.pairwise_lt_range' 1 calls.length).chain'

/-! ## Claim C9 -/

/-- Claim C9 (confirmed): every derived reading's battery level equals
`max(10, 100 - frameCounter * 0.01)` for the process-wide frame counter at
the call; derivation leaves the counter unchanged (only frame generation
increments it), the battery formula is non-increasing in the counter, and
the battery level never drops below 10. -/
theorem claim_C9 (st : GenState) (frame : BLEWBANFrame) (g : RNG)
    (c c' : Nat) (hcc : c ≤ c') :
    (extractVitalSigns st frame g).1.batteryLevel =
      max 10 (100 - (st.frameCounter : ℚ) * (1 / 100)) ∧
    (extractVitalSigns st frame g).2.1.frameCounter = st.frameCounter ∧
    max 10 (100 - (c' : ℚ) * (1 / 100)) ≤ max 10 (100 - (c : ℚ) * (1 / 100)) ∧
    (10 : ℚ) ≤ (extractVitalSigns st frame g).1.batteryLevel := by
  refine ⟨rfl, rfl, ?_, le_max_left _ _⟩
  have hc : (c : ℚ) ≤ (c' : ℚ) := by exact_mod_cast hcc
  apply max_le_max le_rfl
  linarith

/-- Claim C9 witness: the battery formula at the concrete empty state and
monotonicity between counters 1 and 2. -/
theorem claim_C9_witness :
    (extractVitalSigns emptyState poorWristFrame halfRNG).1.batteryLevel =
      max 10 (100 - (emptyState.frameCounter : ℚ) * (1 / 100)) ∧
    max 10 (100 - ((2 : ℕ) : ℚ) * (1 / 100)) ≤
      max 10 (100 - ((1 : ℕ) : ℚ) * (1 / 100)) := by
  have h := claim_C9 emptyState poorWristFrame halfRNG 1 2 (by norm_num)
  exact ⟨h.1, h.2.2.1⟩

/-! ## Claim C10 -/

/-- No catalog position id has the form `prefixPart ++ "_" ++ s` for a catalog
position id `s`: checked over all 36 pairs via the suffix criterion. -/
theorem catalog_suffix_check :
    ∀ s ∈ WBAN_POSITIONS.map fun x => x.id,
      ∀ k ∈ WBAN_POSITIONS.map fun x => x.id,
        ¬(('_' :: s.data) <:+ k.data) := by decide

/-- A composite device id `p ++ "_" ++ s` built from a catalog position id
`s` never equals a bare catalog position id `k`. -/
theorem composite_id_ne (p s k : String)
    (hs : s ∈ WBAN_POSITIONS.map fun x => x.id)
    (hk : k ∈ WBAN_POSITIONS.map fun x => x.id) :
    p ++ "_" ++ s ≠ k := by
  intro h
  have hd0 : (p ++ "_" ++ s).data = k.data := congrArg String.data h
  rw [String.data_append, String.data_append] at hd0
  have hu : ("_" : String).data = ['_'] := rfl
  rw [hu, List.append_assoc] at hd0
  have hsf : ('_' :: s.data) <:+ k.data := ⟨p.data, by simpa using hd0⟩
  exact absurd hsf (catalog_suffix_check s hs k hk)

/-- Looking up a composite device id in a map whose keys are all bare catalog
position ids always misses. -/
theorem mapGet_composite_none (m : List (String × ℚ))
    (hm : ∀ kv ∈ m, kv.1 ∈ WBAN_POSITIONS.map fun x => x.id)
    (p s : String) (hs : s ∈ WBAN_POSITIONS.map fun x => x.id) :
    mapGet m (p ++ "_" ++ s) = none := by
  induction m with
  | nil => rfl
  | cons kv rest ih =>
    obtain ⟨k, v⟩ := kv
    have hk : k ∈ WBAN_POSITIONS.map fun x => x.id := hm (k, v) (by simp)
    have hne : k ≠ p ++ "_" ++ s := fun he =>
      composite_id_ne p s k hs hk he.symm
    simp only [mapGet, if_neg hne]
    exact ih fun kv2 hkv2 => hm kv2 (List.mem_cons_of_mem _ hkv2)

theorem mkGenerator_keys (rng : RNG) :
    ∀ kv ∈ (mkGenerator rng).1.signalNoiseFactors,
      kv.1 ∈ WBAN_POSITIONS.map fun x => x.id := by
  intro kv hkv
  rw [mkGenerator_factors] at hkv
  simp only [List.mem_cons, List.mem_singleton, List.not_mem_nil, or_false] at hkv
  rcases hkv with rfl | rfl | rfl | rfl | rfl | rfl
  · exact (by decide : ("chest" : String) ∈ WBAN_POSITIONS.map fun x => x.id)
  · exact (by decide : ("wrist_l" : String) ∈ WBAN_POSITIONS.map fun x => x.id)
  · exact (by decide : ("wrist_r" : String) ∈ WBAN_POSITIONS.map fun x => x.id)
  · exact (by decide : ("head" : String) ∈ WBAN_POSITIONS.map fun x => x.id)
  · exact (by decide : ("arm_l" : String) ∈ WBAN_POSITIONS.map fun x => x.id)
  · exact (by decide : ("torso_back" : String) ∈ WBAN_POSITIONS.map fun x => x.id)

theorem generateBLEFrame_rng_f (st : GenState) (d : String) (pos : Position)
    (now : ℤ) (g : RNG) : ((generateBLEFrame st d pos now g).2.2).f = g.f := by
  by_cases h : g.f g.idx > 7 / 10 <;>
    simp [generateBLEFrame, pickTxPower_rng, randList_rng, RNG.next, h]

theorem baseVitals_rng_f (pos : Position) (last : Option VitalSignsReading)
    (g : RNG) : ((baseVitals pos last g).2).f = g.f := by
  cases pos <;> simp [baseVitals, RNG.next]

theorem extractVitalSigns_rng_f (st : GenState) (frame : BLEWBANFrame) (g : RNG) :
    ((extractVitalSigns st frame g).2.2).f = g.f :=
  baseVitals_rng_f frame.position (mapGet st.lastReadings frame.deviceId) g

theorem unit01_of_f_eq {g g' : RNG} (hf : g'.f = g.f) (hU : g.Unit01) :
    g'.Unit01 := by
  intro n
  rw [hf]
  exact hU n

/-- With a missing noise-factor entry, the factor defaults to 1 and the RSSI
lands in [-50, -30). -/
theorem rssi_bounds_of_miss (st : GenState) (d : String) (pos : Position)
    (now : ℤ) (g : RNG) (hU : g.Unit01)
    (hmiss : mapGet st.signalNoiseFactors d = none) :
    -50 ≤ (generateBLEFrame st d pos now g).1.rssi ∧
      (generateBLEFrame st d pos now g).1.rssi < -30 := by
  rw [generateBLEFrame_rssi, hmiss]
  obtain ⟨h0, h1⟩ := hU (g.idx + (if g.f g.idx > 7 / 10 then 1 else 2) + 22)
  norm_num [jsOr]
  constructor <;> linarith

theorem quality_cases_of_strong {rssi : ℚ} (h : -50 ≤ rssi) (d : Bool) :
    classifyQuality rssi d = SignalQuality.excellent ∨
      classifyQuality rssi d = SignalQuality.poor := by
  unfold classifyQuality
  cases d
  · right
    rw [if_pos (Or.inr rfl)]
  · left
    have h1 : ¬(rssi < -70 ∨ true = false) := by
      rintro (hlt | hbf)
      · linarith
      · exact Bool.noConfusion hbf
    rw [if_neg h1, if_neg (by intro hx; linarith : ¬rssi < -60),
      if_neg (by intro hx; linarith : ¬rssi < -50)]

theorem strength_gt_40 {rssi : ℚ} (h : -50 ≤ rssi) :
    40 < max 0 (min 100 ((rssi + 100) * (125 / 100))) := by
  have h1 : (125 : ℚ) / 2 ≤ (rssi + 100) * (125 / 100) := by linarith
  have h2 : (125 : ℚ) / 2 ≤ min 100 ((rssi + 100) * (125 / 100)) :=
    le_min (by norm_num) h1
  have h3 : min 100 ((rssi + 100) * (125 / 100)) ≤
      max 0 (min 100 ((rssi + 100) * (125 / 100))) := le_max_right _ _
  have h4 : (40 : ℚ) < 125 / 2 := by norm_num
  linarith

theorem conn_cases_of_strong {s : ℚ} (h : 40 < s) :
    classifyConnection s = ConnectionStatus.connected ∨
      classifyConnection s = ConnectionStatus.weak := by
  unfold classifyConnection
  by_cases h7 : s > 70
  · left
    rw [if_pos h7]
  · right
    rw [if_neg h7, if_pos h]

theorem genLoop_len (pti : String) (now : ℤ) (sensors : List SensorPosition) :
    ∀ (st : GenState) (g : RNG),
      ((genLoop pti now sensors st g).1.2).length = sensors.length := by
  induction sensors with
  | nil =>
    intro st g
    rfl
  | cons s rest ih =>
    intro st g
    simp only [genLoop, List.length_cons, ih]

theorem aggregateVitalSigns_isSome (readings : List VitalSignsReading)
    (hne : readings ≠ []) : ∃ x, aggregateVitalSigns readings = some x := by
  obtain ⟨b, hb⟩ := aggBase_isSome readings hne
  have hs : (aggregateVitalSigns readings).isSome := by
    simp [aggregateVitalSigns, hb]
  exact Option.isSome_iff_exists.mp hs

/-- Main induction for claim C10: along the per-sensor loop, every frame's
composite device id misses the noise-factor map (whose keys stay the bare
catalog ids), so every frame's RSSI is in [-50, -30), every reading's
quality is excellent or poor, and every reading's connection status is
connected or weak. -/
theorem genLoop_strong (pti : String) (now : ℤ) (F : List (String × ℚ))
    (hkeys : ∀ kv ∈ F, kv.1 ∈ WBAN_POSITIONS.map fun x => x.id) :
    ∀ (sensors : List SensorPosition),
      (∀ s ∈ sensors, s.id ∈ WBAN_POSITIONS.map fun x => x.id) →
      ∀ (st : GenState), st.signalNoiseFactors = F →
      ∀ (g : RNG), g.Unit01 →
      ((genLoop pti now sensors st g).1.1.Forall fun f =>
        mapGet F f.deviceId = none ∧ -50 ≤ f.rssi ∧ f.rssi < -30) ∧
      ((genLoop pti now sensors st g).1.2.Forall fun v =>
        (v.signalQuality = SignalQuality.excellent ∨
          v.signalQuality = SignalQuality.poor) ∧
        (v.connectionStatus = ConnectionStatus.connected ∨
          v.connectionStatus = ConnectionStatus.weak)) := by
  intro sensors
  induction sensors with
  | nil =>
    intro _ st _ g _
    exact ⟨trivial, trivial⟩
  | cons s rest ih =>
    intro hsub st hF g hU
    have hsid := hsub s (List.mem_cons_self s rest)
    have hmiss : mapGet st.signalNoiseFactors (pti ++ "_" ++ s.id) = none := by
      rw [hF]
      exact mapGet_composite_none F hkeys pti s.id hsid
    have hrssi := rssi_bounds_of_miss st (pti ++ "_" ++ s.id) s.position now g hU hmiss
    rw [hF] at hmiss
    simp only [genLoop, List.forall_cons]
    set fr := generateBLEFrame st (pti ++ "_" ++ s.id) s.position now g with hfr
    set vr := extractVitalSigns fr.2.1 fr.1 fr.2.2 with hvr
    have hdev : fr.1.deviceId = pti ++ "_" ++ s.id := by
      rw [hfr]
      rfl
    have hF' : vr.2.1.signalNoiseFactors = F := by
      rw [hvr, hfr]
      exact hF
    have hfstep : vr.2.2.f = g.f := by
      rw [hvr, extractVitalSigns_rng_f, hfr, generateBLEFrame_rng_f]
    have hU' : vr.2.2.Unit01 := unit01_of_f_eq hfstep hU
    have hsq : vr.1.signalQuality = classifyQuality fr.1.rssi fr.1.frameDecoded := by
      rw [hvr]
      rfl
    have hconn : vr.1.connectionStatus = classifyConnection fr.1.signalStrength := by
      rw [hvr]
      rfl
    have hstr : fr.1.signalStrength =
        max 0 (min 100 ((fr.1.rssi + 100) * (125 / 100))) := by
      rw [hfr]
      rfl
    obtain ⟨ihf, ihv⟩ :=
      ih (fun x hx => hsub x (List.mem_cons_of_mem s hx)) vr.2.1 hF' vr.2.2 hU'
    refine ⟨⟨⟨?_, hrssi⟩, ihf⟩, ⟨?_, ?_⟩, ihv⟩
    · rw [hdev]
      exact hmiss
    · rw [hsq]
      exact quality_cases_of_strong hrssi.1 fr.1.frameDecoded
    · rw [hconn, hstr]
      exact conn_cases_of_strong (strength_gt_40 hrssi.1)

set_option maxHeartbeats 1000000 in
/-- Claim C10 (confirmed): inside `generateWBANReading` every frame is
generated for the composite id `patientId_positionId` while the noise-factor
map is keyed by bare position ids, so the lookup always misses and the
factor defaults to 1; consequently every frame's RSSI is in [-50, -30),
every per-sensor reading's quality is excellent or poor (never fair or
good), and every per-sensor connection status is connected or weak (never
disconnected); the frames `generateWBANReading` returns are exactly the
loop's frames. -/
theorem claim_C10 (rng g : RNG) (p : String) (now : ℤ) (hU : g.Unit01) :
    ((genLoop p now WBAN_POSITIONS (mkGenerator rng).1 g).1.1.Forall fun f =>
      mapGet (mkGenerator rng).1.signalNoiseFactors f.deviceId = none ∧
      -50 ≤ f.rssi ∧ f.rssi < -30) ∧
    ((genLoop p now WBAN_POSITIONS (mkGenerator rng).1 g).1.2.Forall fun v =>
      (v.signalQuality = SignalQuality.excellent ∨
        v.signalQuality = SignalQuality.poor) ∧
      (v.connectionStatus = ConnectionStatus.connected ∨
        v.connectionStatus = ConnectionStatus.weak)) ∧
    ((generateWBANReading (mkGenerator rng).1 p now g).1.map fun n => n.bleFrames) =
      some (genLoop p now WBAN_POSITIONS (mkGenerator rng).1 g).1.1 := by
  have hmain := genLoop_strong p now (mkGenerator rng).1.signalNoiseFactors
    (mkGenerator_keys rng) WBAN_POSITIONS
    (fun s hs => List.mem_map_of_mem (fun x => x.id) hs)
    (mkGenerator rng).1 rfl g hU
  refine ⟨hmain.1, hmain.2, ?_⟩
  have hlen := genLoop_len p now WBAN_POSITIONS (mkGenerator rng).1 g
  have hne : (genLoop p now WBAN_POSITIONS (mkGenerator rng).1 g).1.2 ≠ [] := by
    intro h
    rw [h] at hlen
    simp [WBAN_POSITIONS] at hlen
  obtain ⟨x, hx⟩ := aggregateVitalSigns_isSome _ hne
  revert hx
  generalize hrun : genLoop p now WBAN_POSITIONS (mkGenerator rng).1 g = run
  intro hx
  delta generateWBANReading
  simp only [hrun, hx, Option.map_some']

/-- Claim C10 witness: the lookup-miss and RSSI facts at concrete streams and
patient id "P001". -/
theorem claim_C10_witness :
    ((genLoop "P001" 0 WBAN_POSITIONS (mkGenerator zeroRNG).1 halfRNG).1.1.Forall fun f =>
      mapGet (mkGenerator zeroRNG).1.signalNoiseFactors f.deviceId = none ∧
      -50 ≤ f.rssi ∧ f.rssi < -30) :=
  (claim_C10 zeroRNG halfRNG "P001" 0 (by intro n; norm_num [halfRNG])).1

end BLEWBAN
